import Mathlib

/-!
Verification development for the coordinate-assignment subsystem of the
social-dance-moments website (files `app/geocoding.py` and `app/admin.py`).

The Python source is shallowly embedded: pure functions become Lean
functions, module-level mutable dictionaries become explicit state passing,
the external geocoder becomes an oracle parameter, exceptions that the
source may catch become an explicit `Except` layer, and `try`/`except`
blocks become the corresponding handlers.  Python floats are modelled as
exact numbers (`ℚ` for the geocoding module, `ℝ` where trigonometry is
involved); machine rounding is abstracted away.  Python's `str.lower` and
`str.strip` are modelled on ASCII text (all inputs of interest are ASCII).
-/

namespace DanceGeo

/-! ### Python string primitives (ASCII fragment) -/

/-- `str.lower` on one ASCII character. -/
def lowerChar (c : Char) : Char :=
  if 65 ≤ c.toNat ∧ c.toNat ≤ 90 then Char.ofNat (c.toNat + 32) else c

/-- `str.lower` on a character list. -/
def pyLower (l : List Char) : List Char := l.map lowerChar

/-- Python whitespace test (ASCII fragment of `str.isspace`). -/
def isPySpace (c : Char) : Bool :=
  c.toNat = 32 ∨ c.toNat = 9 ∨ c.toNat = 10 ∨ c.toNat = 13 ∨ c.toNat = 11 ∨ c.toNat = 12

/-- `str.strip`: drop leading and trailing whitespace. -/
def pyStrip (l : List Char) : List Char :=
  ((l.dropWhile isPySpace).reverse.dropWhile isPySpace).reverse

/-- `s.lower().strip()`, the normalization the source applies to cache keys. -/
def pyNorm (s : String) : List Char := pyStrip (pyLower s.toList)

/-- UTF-8 encoding of one code point (`str.encode` acts per character). -/
def utf8Char (c : Char) : List Nat :=
  let n := c.toNat
  if n < 128 then [n]
  else if n < 2048 then [192 + n / 64, 128 + n % 64]
  else if n < 65536 then [224 + n / 4096, 128 + n / 64 % 64, 128 + n % 64]
  else [240 + n / 262144, 128 + n / 4096 % 64, 128 + n / 64 % 64, 128 + n % 64]

/-- `bytes` of a character list under UTF-8 (`str.encode()`). -/
def utf8 (l : List Char) : List Nat := l.flatMap utf8Char

/-! ### 32-bit arithmetic on `Nat` (kernel-friendly, fuel-structured) -/

/-- Bitwise AND of the low `fuel` bits. -/
def bAnd : Nat → Nat → Nat → Nat
  | 0, _, _ => 0
  | f + 1, a, b => a % 2 * (b % 2) + 2 * bAnd f (a / 2) (b / 2)

/-- Bitwise OR of the low `fuel` bits. -/
def bOr : Nat → Nat → Nat → Nat
  | 0, _, _ => 0
  | f + 1, a, b => max (a % 2) (b % 2) + 2 * bOr f (a / 2) (b / 2)

/-- Bitwise XOR of the low `fuel` bits. -/
def bXor : Nat → Nat → Nat → Nat
  | 0, _, _ => 0
  | f + 1, a, b => (a % 2 + b % 2) % 2 + 2 * bXor f (a / 2) (b / 2)

/-- 32-bit complement (value assumed `< 2^32`). -/
def bNot32 (a : Nat) : Nat := 4294967295 - a

/-- 32-bit left rotation by `n` places. -/
def rotl32 (x n : Nat) : Nat := (x * 2 ^ n + x / 2 ^ (32 - n)) % 4294967296

/-! ### MD5 (RFC 1321), as used by `hashlib.md5` in `_jitter_coordinates` -/

/-- The 64 MD5 sine-derived constants `K[i] = floor(|sin(i+1)| * 2^32)`. -/
def md5K : List Nat :=
  [3614090360, 3905402710, 606105819, 3250441966, 4118548399, 1200080426,
   2821735955, 4249261313, 1770035416, 2336552879, 4294925233, 2304563134,
   1804603682, 4254626195, 2792965006, 1236535329, 4129170786, 3225465664,
   643717713, 3921069994, 3593408605, 38016083, 3634488961, 3889429448,
   568446438, 3275163606, 4107603335, 1163531501, 2850285829, 4243563512,
   1735328473, 2368359562, 4294588738, 2272392833, 1839030562, 4259657740,
   2763975236, 1272893353, 4139469664, 3200236656, 681279174, 3936430074,
   3572445317, 76029189, 3654602809, 3873151461, 530742520, 3299628645,
   4096336452, 1126891415, 2878612391, 4237533241, 1700485571, 2399980690,
   4293915773, 2240044497, 1873313359, 4264355552, 2734768916, 1309151649,
   4149444226, 3174756917, 718787259, 3951481745]

/-- The 64 MD5 per-round rotation amounts. -/
def md5S : List Nat :=
  [7, 12, 17, 22, 7, 12, 17, 22, 7, 12, 17, 22, 7, 12, 17, 22,
   5, 9, 14, 20, 5, 9, 14, 20, 5, 9, 14, 20, 5, 9, 14, 20,
   4, 11, 16, 23, 4, 11, 16, 23, 4, 11, 16, 23, 4, 11, 16, 23,
   6, 10, 15, 21, 6, 10, 15, 21, 6, 10, 15, 21, 6, 10, 15, 21]

/-- MD5 message padding: append `0x80`, zero-pad to 56 mod 64 bytes, then the
64-bit little-endian bit length. -/
def md5Pad (msg : List Nat) : List Nat :=
  let len := msg.length
  let zeros := (119 - len % 64) % 64
  let bitLen := 8 * len
  msg ++ 128 :: List.replicate zeros 0 ++
    ((List.range 8).map fun i => bitLen / 256 ^ i % 256)

/-- Split a padded message into 64-byte blocks (`fuel` bounds the recursion). -/
def md5BlocksF : Nat → List Nat → List (List Nat)
  | 0, _ => []
  | _, [] => []
  | f + 1, l => l.take 64 :: md5BlocksF f (l.drop 64)

/-- Little-endian 32-bit word `j` of a 64-byte block. -/
def md5Word (blk : List Nat) (j : Nat) : Nat :=
  blk.getD (4 * j) 0 + 256 * blk.getD (4 * j + 1) 0 +
    65536 * blk.getD (4 * j + 2) 0 + 16777216 * blk.getD (4 * j + 3) 0

/-- One MD5 round: `i` is the round number, `(a, b, c, d)` the state,
`blk` the current block. -/
def md5Round (blk : List Nat) (st : Nat × Nat × Nat × Nat) (i : Nat) :
    Nat × Nat × Nat × Nat :=
  let (a, b, c, d) := st
  let fg : Nat × Nat :=
    if i < 16 then (bOr 32 (bAnd 32 b c) (bAnd 32 (bNot32 b) d), i)
    else if i < 32 then (bOr 32 (bAnd 32 d b) (bAnd 32 (bNot32 d) c), (5 * i + 1) % 16)
    else if i < 48 then (bXor 32 b (bXor 32 c d), (3 * i + 5) % 16)
    else (bXor 32 c (bOr 32 b (bNot32 d)), 7 * i % 16)
  let f := (fg.1 + a + md5K.getD i 0 + md5Word blk fg.2) % 4294967296
  (d, (b + rotl32 f (md5S.getD i 0)) % 4294967296, b, c)

/-- Process one 64-byte block, updating the four 32-bit registers. -/
def md5Block (st : Nat × Nat × Nat × Nat) (blk : List Nat) :
    Nat × Nat × Nat × Nat :=
  let (a0, b0, c0, d0) := st
  let (a, b, c, d) := (List.range 64).foldl (md5Round blk) (a0, b0, c0, d0)
  ((a0 + a) % 4294967296, (b0 + b) % 4294967296,
   (c0 + c) % 4294967296, (d0 + d) % 4294967296)

/-- Little-endian byte serialization of a 32-bit word. -/
def wordLE (w : Nat) : List Nat :=
  [w % 256, w / 256 % 256, w / 65536 % 256, w / 16777216 % 256]

/-- The 16-byte MD5 digest of a byte string (`hashlib.md5(x).digest()`). -/
def md5 (msg : List Nat) : List Nat :=
  let padded := md5Pad msg
  let blocks := md5BlocksF padded.length padded
  let fin := blocks.foldl md5Block (1732584193, 4023233417, 2562383102, 271733878)
  wordLE fin.1 ++ wordLE fin.2.1 ++ wordLE fin.2.2.1 ++ wordLE fin.2.2.2

/-! ### `app/geocoding.py`: tables, jitter, resolvers

Coordinates are modelled as exact rationals.  The two module-level mutable
dictionaries `GEOCODING_CACHE` and `WORKSHOP_GEOCODING_CACHE` become the two
fields of an explicit `GeoState`; a dictionary write is a cons (lookup takes
the first, i.e. most recent, binding).  The Nominatim geocoder becomes an
oracle `GeocodeFn` from the raw query text to a reply that may be a hit,
a miss, or a raised exception; `queries` counts oracle calls. -/

/-- A coordinate pair (lat, lon). -/
abbrev Coord := ℚ × ℚ

/-- First-match association-list lookup (Python dict lookup, with writes
modelled as cons at the front). -/
def assocLookup {α : Type} : List (List Char × α) → List Char → Option α
  | [], _ => none
  | (k, v) :: rest, key => if k = key then some v else assocLookup rest key

/-- The static seed contents of `GEOCODING_CACHE` (city-level coordinates). -/
def GEOCODING_CACHE : List (List Char × Coord) :=
  [("london".toList, (51.5074, -0.1278)),
   ("paris".toList, (48.8566, 2.3522)),
   ("berlin".toList, (52.5200, 13.4050)),
   ("madrid".toList, (40.4168, -3.7038)),
   ("barcelona".toList, (41.3851, 2.1734)),
   ("amsterdam".toList, (52.3676, 4.9041)),
   ("lisbon".toList, (38.7223, -9.1393)),
   ("milan".toList, (45.4642, 9.1900)),
   ("rome".toList, (41.9028, 12.4964)),
   ("vienna".toList, (48.2082, 16.3738)),
   ("prague".toList, (50.0755, 14.4378)),
   ("warsaw".toList, (52.2297, 21.0122)),
   ("budapest".toList, (47.4979, 19.0402)),
   ("athens".toList, (37.9838, 23.7275)),
   ("istanbul".toList, (41.0082, 28.9784)),
   ("sofia".toList, (42.6977, 23.3219))]

/-- `CITY_BOUNDS`: per-city jitter variances (lat variance, lon variance). -/
def CITY_BOUNDS : List (List Char × (ℚ × ℚ)) :=
  [("london".toList, (0.15, 0.25)),
   ("paris".toList, (0.1, 0.15)),
   ("berlin".toList, (0.12, 0.15)),
   ("madrid".toList, (0.08, 0.12)),
   ("barcelona".toList, (0.08, 0.12)),
   ("amsterdam".toList, (0.08, 0.12)),
   ("lisbon".toList, (0.08, 0.12)),
   ("rome".toList, (0.06, 0.08)),
   ("vienna".toList, (0.08, 0.1)),
   ("prague".toList, (0.08, 0.1)),
   ("warsaw".toList, (0.12, 0.15)),
   ("budapest".toList, (0.08, 0.1)),
   ("athens".toList, (0.08, 0.1)),
   ("istanbul".toList, (0.15, 0.25)),
   ("sofia".toList, (0.1, 0.12))]

/-- State of the geocoding module: the two cache dictionaries plus a count
of external geocoder calls (instrumentation for the caching claims). -/
structure GeoState where
  cityCache : List (List Char × Coord)
  venueCache : List (List Char × Coord)
  queries : Nat
deriving DecidableEq

/-- Initial module state: the seeded city cache, an empty workshop cache. -/
def initGeoState : GeoState :=
  { cityCache := GEOCODING_CACHE, venueCache := [], queries := 0 }

/-- Outcome of one `geolocator.geocode` call: a hit, a `None` result, or a
raised exception. -/
inductive GeoReply
  | raised
  | found (lat lon : ℚ)
  | notFound
deriving DecidableEq

/-- The external geocoder, as an oracle over the raw query text. -/
abbrev GeocodeFn := List Char → GeoReply

/-- Record one external call in the state. -/
def bumpQ (st : GeoState) : GeoState := { st with queries := st.queries + 1 }

/-- `_jitter_coordinates(lat, lon, location, city)`: deterministic jitter
from the MD5 hash of the normalized `"<location>|<city>"` string, scaled by
the `CITY_BOUNDS` entry for `city.lower()` (default `(0.1, 0.1)`). -/
def jitter_coordinates (lat lon : ℚ) (location city : String) : Coord :=
  let bounds := (assocLookup CITY_BOUNDS (pyLower city.toList)).getD (0.1, 0.1)
  let hashInput := pyNorm location ++ '|' :: pyNorm city
  let hashBytes := md5 (utf8 hashInput)
  let latOffset := ((hashBytes.getD 0 0 : ℚ) / 255 * 2 - 1) * bounds.1
  let lonOffset := ((hashBytes.getD 1 0 : ℚ) / 255 * 2 - 1) * bounds.2
  (lat + latOffset, lon + lonOffset)

/-- The raw (un-normalized) query text `f"{city_name}, Europe"` sent by
`get_city_coordinates`. -/
def cityQuery (city : String) : List Char :=
  city.toList ++ ", Europe".toList

/-- The raw query text `f"{location}, {city}, Europe"` sent by
`get_workshop_coordinates`. -/
def streetQuery (location city : String) : List Char :=
  location.toList ++ ", ".toList ++ city.toList ++ ", Europe".toList

/-- `get_city_coordinates(city_name)`: normalized cache lookup, then one
external query for `"<city>, Europe"` inside `try`/`except` (an exception is
caught and the function returns `None`).  `.error` would mean an uncaught
exception; every branch here is protected. -/
def get_city_coordinates (g : GeocodeFn) (city : String) (st : GeoState) :
    Except GeoState (Option Coord × GeoState) :=
  let key := pyNorm city
  match assocLookup st.cityCache key with
  | some c => .ok (some c, st)
  | none =>
    match g (cityQuery city), bumpQ st with
    | .raised, st1 => .ok (none, st1)
    | .found a b, st1 =>
        .ok (some (a, b), { st1 with cityCache := (key, (a, b)) :: st1.cityCache })
    | .notFound, st1 => .ok (none, st1)

/-- Cache key of `get_workshop_coordinates`:
`f"{location.lower().strip()}|{city.lower().strip()}"`. -/
def venueKey (location city : String) : List Char :=
  pyNorm location ++ '|' :: pyNorm city

/-- The fallback tail of `get_workshop_coordinates` (city coordinates plus
jitter).  This region of the source is not inside a `try` block, so an
exception escaping `get_city_coordinates` would propagate (`.error`). -/
def workshopFallback (g : GeocodeFn) (location city : String)
    (key : List Char) (st : GeoState) :
    Except GeoState (Option Coord × GeoState) :=
  match get_city_coordinates g city st with
  | .error st1 => .error st1
  | .ok (none, st1) => .ok (none, st1)
  | .ok (some (a, b), st1) =>
      let jittered := jitter_coordinates a b location city
      .ok (some jittered,
        { st1 with venueCache := (key, jittered) :: st1.venueCache })

/-- `get_workshop_coordinates(location, city)`: venue-cache lookup, then one
street-level query for `f"{location}, {city}, Europe"` inside `try`/`except`
(a raised exception and a `None` result both fall through to the city-plus-
jitter fallback). -/
def get_workshop_coordinates (g : GeocodeFn) (location city : String)
    (st : GeoState) : Except GeoState (Option Coord × GeoState) :=
  let key := venueKey location city
  match assocLookup st.venueCache key with
  | some c => .ok (some c, st)
  | none =>
    match g (streetQuery location city), bumpQ st with
    | .found a b, st1 =>
        .ok (some (a, b), { st1 with venueCache := (key, (a, b)) :: st1.venueCache })
    | .raised, st1 => workshopFallback g location city key st1
    | .notFound, st1 => workshopFallback g location city key st1

/-! ### `app/admin.py`: style distribution, collision avoidance, pipelines

The style/collision displacements use `math.cos`/`math.sin`, so these are
modelled over `ℝ`.  The `workshops` table becomes a list of rows; the
`predefined_locations` table becomes a lookup function on the raw (location,
city) strings, matching the exact-match SQL query of the source. -/

/-- `STYLE_ANGLES`: compass bearings per dance style (degrees). -/
def STYLE_ANGLES : List (String × ℚ) :=
  [("salsa", 45), ("bachata", 135), ("kizomba", 225), ("zouk", 315),
   ("lets_party", 0)]

/-- String-keyed first-match association lookup. -/
def strLookup {α : Type} : List (String × α) → String → Option α
  | [], _ => none
  | (k, v) :: rest, key => if k = key then some v else strLookup rest key

/-- `get_style_angle(style)`: `STYLE_ANGLES.get(style, 0)`. -/
def get_style_angle (style : String) : ℚ :=
  (strLookup STYLE_ANGLES style).getD 0

/-- `math.radians(x) = x * pi / 180`. -/
noncomputable def pyRadians (x : ℝ) : ℝ := x * Real.pi / 180

/-- `apply_style_deviation(lat, lon, style)`: displace the base point by
radius `0.000063` at the style's compass angle (cos for lat, sin for lon). -/
noncomputable def apply_style_deviation (lat lon : ℝ) (style : String) :
    ℝ × ℝ :=
  let angleRadians := pyRadians ((get_style_angle style : ℚ) : ℝ)
  let radius : ℝ := 0.000063
  (lat + radius * Real.cos angleRadians, lon + radius * Real.sin angleRadians)

/-- One row of the `workshops` table (the columns the coordinate logic
reads). -/
structure WorkshopRow where
  id : Nat
  city : String
  location : String
  style : String
deriving DecidableEq

/-- `SELECT COUNT(*) FROM workshops WHERE city = ? AND location = ? AND
style = ?`. -/
def countSameStyle (db : List WorkshopRow) (city location style : String) :
    Nat :=
  (db.filter fun r =>
    r.city = city ∧ r.location = location ∧ r.style = style).length

/-- The same count with `AND id != ?`. -/
def countSameStyleExcl (db : List WorkshopRow)
    (city location style : String) (wid : Nat) : Nat :=
  (db.filter fun r =>
    r.city = city ∧ r.location = location ∧ r.style = style ∧ r.id ≠ wid).length

/-- The count the collision function re-queries: other workshops matching
(city, location, style), honouring the Python-truthy exclusion id
(`if exclude_workshop_id:` — `None` and `0` both mean "no exclusion"). -/
def collisionOtherCount (db : List WorkshopRow)
    (city location style : String) (excludeWorkshopId : Option Nat) : Nat :=
  match excludeWorkshopId with
  | some wid =>
      if wid ≠ 0 then countSameStyleExcl db city location style wid
      else countSameStyle db city location style
  | none => countSameStyle db city location style

/-- `apply_collision_avoidance_deviation(lat, lon, city, location, style,
style_index, exclude_workshop_id)`: identity when the workshop is alone at
its venue/style, otherwise a polar offset of radius `0.000025` at angle
`style_index * 360 / style_count` degrees. -/
noncomputable def apply_collision_avoidance_deviation
    (db : List WorkshopRow) (lat lon : ℝ) (city location style : String)
    (styleIndex : Nat) (excludeWorkshopId : Option Nat) : ℝ × ℝ :=
  let otherCount : Nat :=
    collisionOtherCount db city location style excludeWorkshopId
  let styleCount : Nat := otherCount + 1
  if styleCount > 1 then
    let collisionRadius : ℝ := 0.000025
    let collisionAngleDeg : ℝ := (styleIndex : ℝ) * 360 / (styleCount : ℝ)
    let collisionAngleRad := pyRadians collisionAngleDeg
    (lat + collisionRadius * Real.cos collisionAngleRad,
     lon + collisionRadius * Real.sin collisionAngleRad)
  else (lat, lon)

/-- The `predefined_locations` table: exact-match lookup on the raw
(location, city) strings. -/
abbrev PredefFn := String → String → Option (ℝ × ℝ)

/-- Python truthiness of an optional string (`if s:`). -/
def truthyS : Option String → Bool
  | none => false
  | some s => s ≠ ""

/-- `s if s else d` for the `updated_*` variables of the update handler. -/
def pyOrElse (o : Option String) (d : String) : String :=
  match o with
  | some s => if s = "" then d else s
  | none => d

/-- The coordinate logic of `admin_create_workshop`: if lat or lon is
missing, inherit both from `predefined_locations (location, city)`; if both
coordinates are then present, apply style deviation, compute the style index
as the count of same-style workshops at the venue, and apply collision
avoidance.  Returns the (lat, lon) column values inserted (either may be
absent). -/
noncomputable def adminCreateCoords (lat lon : Option ℝ)
    (location city style : String) (predef : PredefFn)
    (db : List WorkshopRow) : Option ℝ × Option ℝ :=
  let inherited : Option ℝ × Option ℝ :=
    if lat = none ∨ lon = none then
      match predef location city with
      | some (a, b) => (some a, some b)
      | none => (lat, lon)
    else (lat, lon)
  match inherited with
  | (some la, some lo) =>
      let styled := apply_style_deviation la lo style
      let styleIndex := countSameStyle db city location style
      let final := apply_collision_avoidance_deviation db styled.1 styled.2
        city location style styleIndex none
      (some final.1, some final.2)
  | other => other

/-- The coordinate logic of `admin_update_workshop`: the coordinate block
runs only when a (truthy) new location is supplied or an explicit lat/lon is
supplied.  When a new location is supplied, coordinates are re-fetched from
`predefined_locations (location, updated_city)`; if both coordinates are
then present, the style/collision displacements are applied with the
updated style, city and location (excluding the workshop itself from the
sibling count).  Returns the (lat, lon) values written by the UPDATE
statement (`none` = column untouched). -/
noncomputable def adminUpdateCoords (locU cityU styU : Option String)
    (latU lonU : Option ℝ) (curCity curLoc curSty : String)
    (workshopId : Nat) (predef : PredefFn) (db : List WorkshopRow) :
    Option ℝ × Option ℝ :=
  let updatedStyle := pyOrElse styU curSty
  let updatedCity := pyOrElse cityU curCity
  let updatedLocation := pyOrElse locU curLoc
  if truthyS locU || latU.isSome || lonU.isSome then
    let fetched : Option ℝ × Option ℝ :=
      match locU with
      | some l =>
          if l = "" then (latU, lonU)
          else
            match predef l updatedCity with
            | some (a, b) => (some a, some b)
            | none => (latU, lonU)
      | none => (latU, lonU)
    match fetched with
    | (some la, some lo) =>
        let styled := apply_style_deviation la lo updatedStyle
        let styleIndex :=
          countSameStyleExcl db updatedCity updatedLocation updatedStyle
            workshopId
        let final := apply_collision_avoidance_deviation db styled.1 styled.2
          updatedCity updatedLocation updatedStyle styleIndex (some workshopId)
        (some final.1, some final.2)
    | other => other
  else (latU, lonU)

/-! ### Concrete objects used by witnesses and counterexamples -/

/-- Two same-venue, same-style sibling rows for the collision witness. -/
def siblingPairDb : List WorkshopRow :=
  [⟨1, "sofia", "Studio X", "salsa"⟩, ⟨2, "sofia", "Studio X", "salsa"⟩]

/-- A geocoder that answers every query with "no result". -/
def geocoderNotFound : GeocodeFn := fun _ => GeoReply.notFound

/-- The jittered fallback point for venue ("Studio X", "sofia"). -/
def jitteredSofia : Coord :=
  jitter_coordinates 42.6977 23.3219 "Studio X" "sofia"

/-- The module state after one failed street-level lookup for
("Studio X", "sofia") followed by the jittered city fallback: one external
query issued, the jittered point cached at the venue tier. -/
def cachedSofiaState : GeoState :=
  ⟨GEOCODING_CACHE, [(venueKey "Studio X" "sofia", jitteredSofia)], 1⟩

/-- A predefined-location table holding exactly ("Studio", "sofia"). -/
def predefStudio : PredefFn :=
  fun l c => if l = "Studio" ∧ c = "sofia" then some (1, 2) else none

/-- A predefined-location table holding exactly ("Studio Y", "sofia"). -/
def predefStudioY : PredefFn :=
  fun l c => if l = "Studio Y" ∧ c = "sofia" then some (3, 4) else none

/-- Planar distance between two (lat, lon) pairs, in degrees (used to state
the displacement-radius properties). -/
noncomputable def distDeg (p q : ℝ × ℝ) : ℝ :=
  Real.sqrt ((p.1 - q.1) ^ 2 + (p.2 - q.2) ^ 2)

/-! ### Generic lemmas -/

/-- The first two digest bytes are reductions mod 256, hence below 256. -/
lemma md5_first_two_lt (msg : List Nat) :
    (md5 msg).getD 0 0 < 256 ∧ (md5 msg).getD 1 0 < 256 := by
  refine ⟨?_, ?_⟩ <;> · show _ % 256 < 256; omega

/-- `getD` with a default satisfying `P`, over a table all of whose values
satisfy `P`, yields a value satisfying `P`. -/
lemma assocLookup_getD_prop {α : Type} (P : α → Prop) (d : α) (hd : P d)
    (l : List (List Char × α)) (hl : ∀ p ∈ l, P p.2) (k : List Char) :
    P ((assocLookup l k).getD d) := by
  induction l with
  | nil => exact hd
  | cons p rest ih =>
      obtain ⟨k1, v⟩ := p
      simp only [assocLookup]
      by_cases hk : k1 = k
      · simpa [hk] using hl (k1, v) (by simp)
      · rw [if_neg hk]
        exact ih fun q hq => hl q (List.mem_cons_of_mem _ hq)

/-- Every variance pair the jitter can select is componentwise positive. -/
lemma jitter_bounds_pos (city : String) :
    0 < ((assocLookup CITY_BOUNDS (pyLower city.toList)).getD (0.1, 0.1)).1 ∧
    0 < ((assocLookup CITY_BOUNDS (pyLower city.toList)).getD (0.1, 0.1)).2 := by
  have htab : ∀ p ∈ CITY_BOUNDS, 0 < p.2.1 ∧ 0 < p.2.2 := by
    intro p hp
    fin_cases hp <;> exact ⟨by norm_num, by norm_num⟩
  exact assocLookup_getD_prop (fun q => 0 < q.1 ∧ 0 < q.2) (0.1, 0.1)
    ⟨by norm_num, by norm_num⟩ CITY_BOUNDS htab _

/-- Looking up a freshly consed binding succeeds. -/
lemma assocLookup_cons_self {α : Type} (k : List Char) (v : α)
    (l : List (List Char × α)) : assocLookup ((k, v) :: l) k = some v := by
  simp [assocLookup]

/-! ### Claim theorems -/

/-- **C3.** For every city latitude/longitude, location string and city
string, the jitter function returns exactly
`(cityLat + frac0 * latVariance, cityLon + frac1 * lonVariance)` where
`frac_i = (byte_i/255)*2 - 1` and `byte_0, byte_1` are the first two MD5
bytes of the normalized string `"<location>|<city>"`; the variance pair
comes from the `CITY_BOUNDS` table with default `(0.1, 0.1)` for an unknown
city.  (Determinism across calls is inherent: the embedding is a pure
function of its arguments, faithfully to the source, which reads only
immutable module data.) -/
theorem jitter_matches_spec_formula (lat lon : ℚ) (location city : String) :
    ∃ b0 b1 : Nat,
      (md5 (utf8 (pyNorm location ++ '|' :: pyNorm city))).take 2 = [b0, b1] ∧
      jitter_coordinates lat lon location city =
        (lat + ((b0 : ℚ) / 255 * 2 - 1) *
            ((assocLookup CITY_BOUNDS (pyLower city.toList)).getD (0.1, 0.1)).1,
         lon + ((b1 : ℚ) / 255 * 2 - 1) *
            ((assocLookup CITY_BOUNDS (pyLower city.toList)).getD (0.1, 0.1)).2) :=
  ⟨_, _, rfl, rfl⟩

/-- For a hash byte below 256 the scaled signed fraction stays within the
variance. -/
lemma frac_abs_le (n : Nat) (hn : n < 256) (v : ℚ) (hv : 0 < v) :
    |((n : ℚ) / 255 * 2 - 1) * v| ≤ v := by
  have hn255 : (n : ℚ) ≤ 255 := by exact_mod_cast Nat.lt_succ_iff.mp hn
  have hnn : (0 : ℚ) ≤ (n : ℚ) := by positivity
  rw [abs_mul, abs_of_pos hv]
  have hfrac : |(n : ℚ) / 255 * 2 - 1| ≤ 1 := by
    rw [abs_le]
    constructor <;> nlinarith
  nlinarith [abs_nonneg ((n : ℚ) / 255 * 2 - 1)]

/-- The signed fraction derived from a hash byte is never exactly zero
(that would need the byte to equal 255/2). -/
lemma frac_ne_zero (b : Nat) : ((b : ℚ) / 255 * 2 - 1) ≠ 0 := by
  intro h
  have h2 : (b : ℚ) * 2 = 255 := by
    field_simp at h
    linarith
  have h3 : (b * 2 : Nat) = 255 := by exact_mod_cast h2
  omega

/-- Unfolding of the jitter function to its closed formula. -/
lemma jitter_eq (lat lon : ℚ) (location city : String) :
    jitter_coordinates lat lon location city =
      (lat + (((md5 (utf8 (pyNorm location ++ '|' :: pyNorm city))).getD 0 0 : ℚ)
            / 255 * 2 - 1) *
          ((assocLookup CITY_BOUNDS (pyLower city.toList)).getD (0.1, 0.1)).1,
       lon + (((md5 (utf8 (pyNorm location ++ '|' :: pyNorm city))).getD 1 0 : ℚ)
            / 255 * 2 - 1) *
          ((assocLookup CITY_BOUNDS (pyLower city.toList)).getD (0.1, 0.1)).2) :=
  rfl

/-- **C10.** The jittered point stays inside the variance box around the
city point: the latitude offset lies within the latitude variance and the
longitude offset within the longitude variance, because each MD5 byte
(0..255) maps to a fraction in `[-1, 1]` before scaling. -/
theorem jitter_within_bounds (lat lon : ℚ) (location city : String) :
    |(jitter_coordinates lat lon location city).1 - lat| ≤
        ((assocLookup CITY_BOUNDS (pyLower city.toList)).getD (0.1, 0.1)).1 ∧
    |(jitter_coordinates lat lon location city).2 - lon| ≤
        ((assocLookup CITY_BOUNDS (pyLower city.toList)).getD (0.1, 0.1)).2 := by
  obtain ⟨h1, h2⟩ := jitter_bounds_pos city
  obtain ⟨hb0, hb1⟩ :=
    md5_first_two_lt (utf8 (pyNorm location ++ '|' :: pyNorm city))
  rw [jitter_eq]
  dsimp only
  rw [add_sub_cancel_left, add_sub_cancel_left]
  exact ⟨frac_abs_le _ hb0 _ h1, frac_abs_le _ hb1 _ h2⟩

/-- A polar offset of radius `r` lies at distance exactly `r` from the base
point. -/
lemma polar_dist (lat lon r θ : ℝ) (hr : 0 ≤ r) :
    distDeg (lat + r * Real.cos θ, lon + r * Real.sin θ) (lat, lon) = r := by
  unfold distDeg
  dsimp only
  have h : (lat + r * Real.cos θ - lat) ^ 2 + (lon + r * Real.sin θ - lon) ^ 2
      = r ^ 2 := by
    linear_combination r ^ 2 * Real.sin_sq_add_cos_sq θ
  rw [h, Real.sqrt_sq hr]

/-- The style displacement always lies at distance exactly `0.000063` from
its base point, whatever the style. -/
lemma style_dev_dist (lat lon : ℝ) (s : String) :
    distDeg (apply_style_deviation lat lon s) (lat, lon) = 0.000063 :=
  polar_dist lat lon 0.000063 (pyRadians ((get_style_angle s : ℚ) : ℝ))
    (by norm_num)

/-- Closed form of the salsa displacement (bearing 45° = π/4 radians). -/
lemma style_dev_salsa (lat lon : ℝ) :
    apply_style_deviation lat lon "salsa" =
      (lat + 0.000063 * (Real.sqrt 2 / 2), lon + 0.000063 * (Real.sqrt 2 / 2)) := by
  have gs : get_style_angle "salsa" = 45 := by decide
  simp only [apply_style_deviation, pyRadians, gs]
  push_cast
  rw [show (45 : ℝ) * Real.pi / 180 = Real.pi / 4 by ring,
    Real.cos_pi_div_four, Real.sin_pi_div_four]

/-- Closed form of the bachata displacement (bearing 135° = 3π/4 radians). -/
lemma style_dev_bachata (lat lon : ℝ) :
    apply_style_deviation lat lon "bachata" =
      (lat + 0.000063 * -(Real.sqrt 2 / 2),
       lon + 0.000063 * (Real.sqrt 2 / 2)) := by
  have gb : get_style_angle "bachata" = 135 := by decide
  simp only [apply_style_deviation, pyRadians, gb]
  push_cast
  rw [show (135 : ℝ) * Real.pi / 180 = Real.pi - Real.pi / 4 by ring,
    Real.cos_pi_sub, Real.sin_pi_sub, Real.cos_pi_div_four,
    Real.sin_pi_div_four]

/-- **C4.** The style displacement returns
`(lat + 0.000063·cos(angle), lon + 0.000063·sin(angle))` with the style's
compass bearing converted to radians (cos drives latitude, sin drives
longitude); the displaced points for "salsa" (45°) and "bachata" (135°) are
distinct, and each lies at exactly radius `0.000063` from the base point. -/
theorem style_deviation_spec (lat lon : ℝ) :
    (∀ style, apply_style_deviation lat lon style =
        (lat + 0.000063 *
            Real.cos (((get_style_angle style : ℚ) : ℝ) * Real.pi / 180),
         lon + 0.000063 *
            Real.sin (((get_style_angle style : ℚ) : ℝ) * Real.pi / 180))) ∧
    apply_style_deviation lat lon "salsa" ≠
      apply_style_deviation lat lon "bachata" ∧
    distDeg (apply_style_deviation lat lon "salsa") (lat, lon) = 0.000063 ∧
    distDeg (apply_style_deviation lat lon "bachata") (lat, lon) = 0.000063 := by
  refine ⟨fun style => rfl, ?_, style_dev_dist lat lon "salsa",
    style_dev_dist lat lon "bachata"⟩
  intro h
  rw [style_dev_salsa, style_dev_bachata, Prod.mk.injEq] at h
  have hs2 : 0 < Real.sqrt 2 := Real.sqrt_pos.mpr (by norm_num)
  nlinarith [h.1]

/-- Polar form of the collision displacement when siblings exist. -/
lemma collision_formula (db : List WorkshopRow) (lat lon : ℝ)
    (city location style : String) (i : Nat) (ex : Option Nat)
    (h : 0 < collisionOtherCount db city location style ex) :
    apply_collision_avoidance_deviation db lat lon city location style i ex =
      (lat + 0.000025 * Real.cos (pyRadians ((i : ℝ) * 360 /
          ((collisionOtherCount db city location style ex + 1 : Nat) : ℝ))),
       lon + 0.000025 * Real.sin (pyRadians ((i : ℝ) * 360 /
          ((collisionOtherCount db city location style ex + 1 : Nat) : ℝ)))) := by
  simp only [apply_collision_avoidance_deviation]
  rw [if_pos (by omega)]

lemma cos_deg120 : Real.cos (pyRadians 120) = -(1 / 2) := by
  unfold pyRadians
  rw [show (120 : ℝ) * Real.pi / 180 = Real.pi - Real.pi / 3 by ring,
    Real.cos_pi_sub, Real.cos_pi_div_three]

lemma sin_deg120 : Real.sin (pyRadians 120) = Real.sqrt 3 / 2 := by
  unfold pyRadians
  rw [show (120 : ℝ) * Real.pi / 180 = Real.pi - Real.pi / 3 by ring,
    Real.sin_pi_sub, Real.sin_pi_div_three]

lemma cos_deg240 : Real.cos (pyRadians 240) = -(1 / 2) := by
  unfold pyRadians
  rw [show (240 : ℝ) * Real.pi / 180 = Real.pi / 3 + Real.pi by ring,
    Real.cos_add_pi, Real.cos_pi_div_three]

lemma sin_deg240 : Real.sin (pyRadians 240) = -(Real.sqrt 3 / 2) := by
  unfold pyRadians
  rw [show (240 : ℝ) * Real.pi / 180 = Real.pi / 3 + Real.pi by ring,
    Real.sin_add_pi, Real.sin_pi_div_three]

/-- **C5.** When the sibling count for (city, location, style) — matching
records (honouring the exclusion id) plus one for the current record — is at
most 1, the collision displacement returns the input point unchanged;
otherwise it adds offsets of radius `0.000025` at angle
`siblingIndex·360/siblingCount` (cos for lat, sin for lon): for sibling
count 3 the points for indices 0, 1, 2 sit at angles 0°, 120°, 240°, are
mutually distinct, and each lies at radius `0.000025` from the input
point. -/
theorem collision_avoidance_spec :
    (∀ (db : List WorkshopRow) (lat lon : ℝ) city location style i ex,
        collisionOtherCount db city location style ex + 1 ≤ 1 →
        apply_collision_avoidance_deviation db lat lon city location style i ex
          = (lat, lon)) ∧
    (∀ (db : List WorkshopRow) (lat lon : ℝ) city location style ex,
        collisionOtherCount db city location style ex + 1 = 3 →
        (apply_collision_avoidance_deviation db lat lon city location style 0 ex
            = (lat + 0.000025 * Real.cos (pyRadians 0),
               lon + 0.000025 * Real.sin (pyRadians 0)) ∧
         apply_collision_avoidance_deviation db lat lon city location style 1 ex
            = (lat + 0.000025 * Real.cos (pyRadians 120),
               lon + 0.000025 * Real.sin (pyRadians 120)) ∧
         apply_collision_avoidance_deviation db lat lon city location style 2 ex
            = (lat + 0.000025 * Real.cos (pyRadians 240),
               lon + 0.000025 * Real.sin (pyRadians 240))) ∧
        (apply_collision_avoidance_deviation db lat lon city location style 0 ex
            ≠ apply_collision_avoidance_deviation db lat lon city location style 1 ex ∧
         apply_collision_avoidance_deviation db lat lon city location style 0 ex
            ≠ apply_collision_avoidance_deviation db lat lon city location style 2 ex ∧
         apply_collision_avoidance_deviation db lat lon city location style 1 ex
            ≠ apply_collision_avoidance_deviation db lat lon city location style 2 ex) ∧
        (∀ i, distDeg
            (apply_collision_avoidance_deviation db lat lon city location style i ex)
            (lat, lon) = 0.000025)) := by
  constructor
  · intro db lat lon city location style i ex h
    simp only [apply_collision_avoidance_deviation]
    rw [if_neg (by omega)]
  · intro db lat lon city location style ex h
    have hpos : 0 < collisionOtherCount db city location style ex := by omega
    have e0 := collision_formula db lat lon city location style 0 ex hpos
    have e1 := collision_formula db lat lon city location style 1 ex hpos
    have e2 := collision_formula db lat lon city location style 2 ex hpos
    rw [h] at e0 e1 e2
    rw [show ((0 : Nat) : ℝ) * 360 / ((3 : Nat) : ℝ) = 0 by norm_num] at e0
    rw [show ((1 : Nat) : ℝ) * 360 / ((3 : Nat) : ℝ) = 120 by norm_num] at e1
    rw [show ((2 : Nat) : ℝ) * 360 / ((3 : Nat) : ℝ) = 240 by norm_num] at e2
    have hs3 : 0 < Real.sqrt 3 := Real.sqrt_pos.mpr (by norm_num)
    have c0 : Real.cos (pyRadians 0) = 1 := by
      unfold pyRadians; norm_num
    have s0 : Real.sin (pyRadians 0) = 0 := by
      unfold pyRadians; norm_num
    refine ⟨⟨e0, e1, e2⟩, ⟨?_, ?_, ?_⟩, ?_⟩
    · intro hne
      rw [e0, e1, Prod.mk.injEq, c0, cos_deg120] at hne
      nlinarith [hne.1]
    · intro hne
      rw [e0, e2, Prod.mk.injEq, c0, cos_deg240] at hne
      nlinarith [hne.1]
    · intro hne
      rw [e1, e2, Prod.mk.injEq, sin_deg120, sin_deg240] at hne
      nlinarith [hne.2]
    · intro i
      rw [collision_formula db lat lon city location style i ex hpos]
      exact polar_dist _ _ _ _ (by norm_num)

/-- **C7 (counterexample).** The claim says a style absent from the static
angle table receives a synthetic angle derived from its ordinal position
among the known styles — an evenly spaced fallback.  In the code,
`STYLE_ANGLES.get(style, 0)` gives every unknown style the constant angle
0: two distinct unknown styles ("tango", "rumba") receive the same angle,
which is moreover the angle of the known style "lets_party", so no
per-style evenly spaced synthetic angle exists. -/
theorem style_angle_fallback_counterexample :
    strLookup STYLE_ANGLES "tango" = none ∧
    strLookup STYLE_ANGLES "rumba" = none ∧
    "tango" ≠ "rumba" ∧
    get_style_angle "tango" = 0 ∧
    get_style_angle "rumba" = 0 ∧
    get_style_angle "lets_party" = 0 := by
  refine ⟨by decide, by decide, by decide, by decide, by decide, by decide⟩

/-- **C7 (amended).** Every style absent from the static angle table
receives the constant default angle 0 — deterministic (the same style
string yields the same angle on every call, the function being pure), but
not derived from the style's ordinal position. -/
theorem style_angle_unknown_default (s : String)
    (h : strLookup STYLE_ANGLES s = none) : get_style_angle s = 0 := by
  unfold get_style_angle
  rw [h]
  rfl

/-- Witness for C7: "tango" is not in the table and maps to angle 0. -/
theorem style_angle_unknown_default_witness :
    strLookup STYLE_ANGLES "tango" = none ∧ get_style_angle "tango" = 0 :=
  ⟨by decide, style_angle_unknown_default "tango" (by decide)⟩

/-- Witness for C5: an empty table gives sibling count 1 and the identity;
two sibling rows give sibling count 3 and distinct displaced points. -/
theorem collision_avoidance_spec_witness :
    apply_collision_avoidance_deviation [] 1 2 "sofia" "Studio X" "salsa" 0 none
      = (1, 2) ∧
    apply_collision_avoidance_deviation siblingPairDb 1 2 "sofia" "Studio X"
        "salsa" 0 none ≠
      apply_collision_avoidance_deviation siblingPairDb 1 2 "sofia" "Studio X"
        "salsa" 1 none :=
  ⟨collision_avoidance_spec.1 [] 1 2 "sofia" "Studio X" "salsa" 0 none
      (by decide),
   (collision_avoidance_spec.2 siblingPairDb 1 2 "sofia" "Studio X" "salsa"
      none (by decide)).2.1.1⟩

/-- **C8 (counterexample).** The claim says inputs equal after trimming and
lowercasing produce identical results in all lookup operations, including
the jitter's `CITY_BOUNDS` lookup.  But that lookup keys on `city.lower()`
without stripping: the city `"sofia "` (trailing blank) trims to the same
key as `"sofia"`, yet selects the default variance `(0.1, 0.1)` instead of
`(0.1, 0.12)`, so the jittered points differ. -/
theorem normalization_counterexample :
    pyNorm "sofia " = pyNorm "sofia" ∧
    jitter_coordinates 42.6977 23.3219 "Studio" "sofia " ≠
      jitter_coordinates 42.6977 23.3219 "Studio" "sofia" := by
  refine ⟨by decide, ?_⟩
  rw [jitter_eq, jitter_eq,
    show pyNorm "Studio" ++ '|' :: pyNorm "sofia " =
      pyNorm "Studio" ++ '|' :: pyNorm "sofia" from rfl,
    show assocLookup CITY_BOUNDS (pyLower "sofia ".toList) = none from rfl,
    show assocLookup CITY_BOUNDS (pyLower "sofia".toList) = some (0.1, 0.12)
      from rfl]
  intro h
  have h2 := congrArg Prod.snd h
  dsimp [Option.getD] at h2
  have hf := frac_ne_zero
    ((md5 (utf8 (pyNorm "Studio" ++ '|' :: pyNorm "sofia"))).getD 1 0)
  apply hf
  nlinarith [h2]

/-- **C8 (amended).** For location strings equal after trim+lowercase and
city strings equal after lowercase alone, the jitter computation (hash and
`CITY_BOUNDS` lookup), the venue-tier cache key, and the city-tier cache
key all coincide; the `CITY_BOUNDS` lookup is only case-insensitive, not
trim-insensitive, and the external geocoding queries use the raw strings,
so full trim-insensitivity does not hold. -/
theorem normalization_invariance (loc1 loc2 city1 city2 : String)
    (lat lon : ℚ) (hloc : pyNorm loc1 = pyNorm loc2)
    (hcity : pyLower city1.toList = pyLower city2.toList) :
    jitter_coordinates lat lon loc1 city1 =
      jitter_coordinates lat lon loc2 city2 ∧
    venueKey loc1 city1 = venueKey loc2 city2 ∧
    pyNorm city1 = pyNorm city2 := by
  have hcn : pyNorm city1 = pyNorm city2 := by
    unfold pyNorm
    rw [hcity]
  refine ⟨?_, ?_, hcn⟩
  · rw [jitter_eq, jitter_eq, hloc, hcity, hcn]
  · unfold venueKey
    rw [hloc, hcn]

/-- Witness for C8: case variants of the same venue produce the same jitter
and the same cache keys. -/
theorem normalization_invariance_witness :
    jitter_coordinates 1 2 "Studio X" "Sofia" =
      jitter_coordinates 1 2 " STUDIO X " "SOFIA" ∧
    venueKey "Studio X" "Sofia" = venueKey " STUDIO X " "SOFIA" ∧
    pyNorm "Sofia" = pyNorm "SOFIA" :=
  normalization_invariance "Studio X" " STUDIO X " "Sofia" "SOFIA" 1 2
    (by decide) (by decide)

/-- `get_city_coordinates` always returns normally: its only external call
sits inside the `try`/`except`. -/
lemma get_city_coordinates_ok (g : GeocodeFn) (city : String)
    (st : GeoState) :
    ∃ v st1, get_city_coordinates g city st = .ok (v, st1) := by
  cases h : assocLookup st.cityCache (pyNorm city) with
  | some c => exact ⟨some c, st, by simp [get_city_coordinates, h]⟩
  | none =>
      cases hg : g (cityQuery city) with
      | raised => exact ⟨none, bumpQ st, by simp [get_city_coordinates, h, hg]⟩
      | found a b =>
          exact ⟨some (a, b),
            ⟨(pyNorm city, (a, b)) :: st.cityCache, st.venueCache,
              st.queries + 1⟩,
            by simp [get_city_coordinates, h, hg, bumpQ]⟩
      | notFound => exact ⟨none, bumpQ st, by simp [get_city_coordinates, h, hg]⟩

/-- The fallback tail of `get_workshop_coordinates` always returns
normally, because `get_city_coordinates` does. -/
lemma workshopFallback_ok (g : GeocodeFn) (location city : String)
    (key : List Char) (st : GeoState) :
    ∃ v st1, workshopFallback g location city key st = .ok (v, st1) := by
  obtain ⟨v, st1, h⟩ := get_city_coordinates_ok g city st
  unfold workshopFallback
  rw [h]
  cases v with
  | none => exact ⟨none, st1, rfl⟩
  | some c =>
      obtain ⟨a, b⟩ := c
      exact ⟨some (jitter_coordinates a b location city), _, rfl⟩

/-- `get_workshop_coordinates` always returns normally. -/
lemma get_workshop_coordinates_ok (g : GeocodeFn) (location city : String)
    (st : GeoState) :
    ∃ v st1, get_workshop_coordinates g location city st = .ok (v, st1) := by
  cases h : assocLookup st.venueCache (venueKey location city) with
  | some c => exact ⟨some c, st, by simp [get_workshop_coordinates, h]⟩
  | none =>
      cases hg : g (streetQuery location city) with
      | found a b =>
          exact ⟨some (a, b),
            ⟨st.cityCache, (venueKey location city, (a, b)) :: st.venueCache,
              st.queries + 1⟩,
            by simp [get_workshop_coordinates, h, hg, bumpQ]⟩
      | raised =>
          obtain ⟨v, st1, hf⟩ :=
            workshopFallback_ok g location city (venueKey location city)
              (bumpQ st)
          exact ⟨v, st1, by simp [get_workshop_coordinates, h, hg, hf]⟩
      | notFound =>
          obtain ⟨v, st1, hf⟩ :=
            workshopFallback_ok g location city (venueKey location city)
              (bumpQ st)
          exact ⟨v, st1, by simp [get_workshop_coordinates, h, hg, hf]⟩

/-- **C9.** For every geocoder oracle (including one that raises), every
input and every cache state, the city resolver and the venue resolver
return normally — external failures and raised exceptions are absorbed and
every path terminates in either a coordinate pair or `none`. -/
theorem resolvers_never_raise (g : GeocodeFn) (location city : String)
    (st : GeoState) :
    (∃ v st1, get_city_coordinates g city st = .ok (v, st1)) ∧
    (∃ v st1, get_workshop_coordinates g location city st = .ok (v, st1)) :=
  ⟨get_city_coordinates_ok g city st,
   get_workshop_coordinates_ok g location city st⟩

/-- Whenever the fallback tail returns a coordinate, that coordinate is in
the venue cache of the final state under the given key. -/
lemma workshopFallback_cache_some (g : GeocodeFn) (location city : String)
    (key : List Char) (st : GeoState) (p : Coord) (st1 : GeoState)
    (h : workshopFallback g location city key st = .ok (some p, st1)) :
    assocLookup st1.venueCache key = some p := by
  cases hc : get_city_coordinates g city st with
  | error e => simp [workshopFallback, hc] at h
  | ok vs =>
      obtain ⟨v, st2⟩ := vs
      cases v with
      | none => simp [workshopFallback, hc] at h
      | some ab =>
          obtain ⟨a, b⟩ := ab
          simp only [workshopFallback, hc, Except.ok.injEq, Prod.mk.injEq] at h
          obtain ⟨hp, hst⟩ := h
          rw [← hst]
          simp [assocLookup_cons_self, hp]

/-- Whenever the venue resolver returns a coordinate, that coordinate is in
the venue cache of the final state under the venue key. -/
lemma gwc_cache_some (g : GeocodeFn) (location city : String)
    (st : GeoState) (p : Coord) (st1 : GeoState)
    (h : get_workshop_coordinates g location city st = .ok (some p, st1)) :
    assocLookup st1.venueCache (venueKey location city) = some p := by
  cases hv : assocLookup st.venueCache (venueKey location city) with
  | some q =>
      simp only [get_workshop_coordinates, hv, Except.ok.injEq,
        Prod.mk.injEq, Option.some.injEq] at h
      obtain ⟨hp, hst⟩ := h
      rw [← hst, hv, hp]
  | none =>
      cases hg : g (streetQuery location city) with
      | found a b =>
          simp only [get_workshop_coordinates, hv, hg, Except.ok.injEq,
            Prod.mk.injEq, Option.some.injEq] at h
          obtain ⟨hp, hst⟩ := h
          rw [← hst]
          simp [assocLookup_cons_self, hp]
      | raised =>
          simp only [get_workshop_coordinates, hv, hg] at h
          exact workshopFallback_cache_some g location city _ _ _ _ h
      | notFound =>
          simp only [get_workshop_coordinates, hv, hg] at h
          exact workshopFallback_cache_some g location city _ _ _ _ h

/-- **C6 (amended).** (i) If a call to the venue resolver returns a
coordinate, an immediately repeated call with the same (location, city)
issues no further external query and returns the identical cached value
(same result, bit-identical final state).  (ii) When the street-level query
does not succeed and the city resolver returns a coordinate pair, the
resolver returns the deterministically jittered point — not the unjittered
city point — and stores exactly that jittered point in the venue-tier
cache.  (The original "at most one external query" bound fails: a single
first call may issue two queries, street-level then city-level — see the
counterexample.) -/
theorem workshop_resolver_caching :
    (∀ (g : GeocodeFn) (location city : String) (st : GeoState) p st1,
        get_workshop_coordinates g location city st = .ok (some p, st1) →
        get_workshop_coordinates g location city st1 = .ok (some p, st1)) ∧
    (∀ (g : GeocodeFn) (location city : String) (st : GeoState)
        (a b : ℚ) st2,
        assocLookup st.venueCache (venueKey location city) = none →
        (∀ x y, g (streetQuery location city) ≠ .found x y) →
        get_city_coordinates g city (bumpQ st) = .ok (some (a, b), st2) →
        get_workshop_coordinates g location city st =
          .ok (some (jitter_coordinates a b location city),
            { st2 with venueCache :=
                (venueKey location city, jitter_coordinates a b location city)
                  :: st2.venueCache })) := by
  constructor
  · intro g location city st p st1 h
    have hcache := gwc_cache_some g location city st p st1 h
    simp [get_workshop_coordinates, hcache]
  · intro g location city st a b st2 hmiss hstreet hcity
    cases hg : g (streetQuery location city) with
    | found x y => exact absurd hg (hstreet x y)
    | raised =>
        simp [get_workshop_coordinates, hmiss, hg, workshopFallback, hcity]
    | notFound =>
        simp [get_workshop_coordinates, hmiss, hg, workshopFallback, hcity]

/-- **C6 (counterexample).** With a geocoder whose street-level lookup
fails but whose city lookup succeeds, a single resolver call for an
unknown city already issues two external queries, so two calls cannot be
bounded by one query overall; the second call, however, adds none. -/
theorem workshop_resolver_query_count_counterexample :
    (∃ st1, get_workshop_coordinates
        (fun q => if q = cityQuery "Fooville" then GeoReply.found 1 2
          else GeoReply.notFound)
        "Studio Z" "Fooville" initGeoState
        = .ok (some (jitter_coordinates 1 2 "Studio Z" "Fooville"), st1) ∧
      st1.queries = 2) ∧ ¬ (2 : Nat) ≤ 1 := by
  refine ⟨⟨_, rfl, rfl⟩, by omega⟩

/-- Witness for C6: the street-level lookup fails for ("Studio X",
"sofia"), the static city table supplies Sofia's coordinates, the jittered
point is cached, and a second call returns it unchanged with no further
query. -/
theorem workshop_resolver_caching_witness :
    get_workshop_coordinates geocoderNotFound "Studio X" "sofia"
        initGeoState = .ok (some jitteredSofia, cachedSofiaState) ∧
    get_workshop_coordinates geocoderNotFound "Studio X" "sofia"
        cachedSofiaState = .ok (some jitteredSofia, cachedSofiaState) := by
  have h1 : get_workshop_coordinates geocoderNotFound "Studio X" "sofia"
      initGeoState = .ok (some jitteredSofia, cachedSofiaState) :=
    workshop_resolver_caching.2 geocoderNotFound "Studio X" "sofia"
      initGeoState 42.6977 23.3219 (bumpQ initGeoState) rfl
      (fun x y hxy => GeoReply.noConfusion hxy) rfl
  exact ⟨h1, workshop_resolver_caching.1 geocoderNotFound "Studio X" "sofia"
    initGeoState jitteredSofia cachedSofiaState h1⟩

/-- A non-empty provided field wins over the current value. -/
lemma pyOrElse_some {s : String} (d : String) (h : s ≠ "") :
    pyOrElse (some s) d = s := by
  simp [pyOrElse, h]

/-- With both explicit coordinates supplied, the create pipeline displaces
them directly (style then collision), for any predefined table. -/
lemma adminCreate_explicit (la lo : ℝ) (location city style : String)
    (predef : PredefFn) (db : List WorkshopRow) :
    adminCreateCoords (some la) (some lo) location city style predef db =
      (some (apply_collision_avoidance_deviation db
          (apply_style_deviation la lo style).1
          (apply_style_deviation la lo style).2
          city location style (countSameStyle db city location style) none).1,
       some (apply_collision_avoidance_deviation db
          (apply_style_deviation la lo style).1
          (apply_style_deviation la lo style).2
          city location style (countSameStyle db city location style) none).2) :=
  rfl

/-- **C1 (counterexample).** The claim says that with no explicit and no
predefined coordinates the admin create pipeline falls back to the
VenueResolver chain.  It does not: with an empty predefined table the
created workshop gets no coordinates at all, even though the venue
resolver itself (given the same inputs and a street-level miss) would
produce the jittered Sofia point. -/
theorem admin_create_no_geocoder_counterexample :
    adminCreateCoords none none "Studio Ritmo" "sofia" "salsa"
        (fun _ _ => none) [] = (none, none) ∧
    get_workshop_coordinates geocoderNotFound "Studio Ritmo" "sofia"
        initGeoState
      = .ok (some (jitter_coordinates 42.6977 23.3219 "Studio Ritmo" "sofia"),
          ⟨GEOCODING_CACHE,
           [(venueKey "Studio Ritmo" "sofia",
             jitter_coordinates 42.6977 23.3219 "Studio Ritmo" "sofia")], 1⟩) :=
  ⟨rfl, rfl⟩

/-- **C1 (amended).** Base-point precedence of the admin create pipeline:
(i) with both explicit coordinates the result does not depend on the
predefined table (the store is never consulted) and (ii) equals the
explicit point displaced by style then collision; (iii) with no explicit
coordinates and a predefined (location, city) match, the predefined point
is the base, displaced by style then collision; (iv) with no explicit
coordinates and no predefined match, the workshop is created without
coordinates — the admin create flow never invokes the geocoding
resolver chain. -/
theorem admin_create_pipeline :
    (∀ (la lo : ℝ) location city style (p1 p2 : PredefFn) db,
        adminCreateCoords (some la) (some lo) location city style p1 db =
          adminCreateCoords (some la) (some lo) location city style p2 db) ∧
    (∀ (la lo : ℝ) location city style (p : PredefFn) db,
        adminCreateCoords (some la) (some lo) location city style p db =
          (some (apply_collision_avoidance_deviation db
              (apply_style_deviation la lo style).1
              (apply_style_deviation la lo style).2
              city location style (countSameStyle db city location style)
              none).1,
           some (apply_collision_avoidance_deviation db
              (apply_style_deviation la lo style).1
              (apply_style_deviation la lo style).2
              city location style (countSameStyle db city location style)
              none).2)) ∧
    (∀ location city style (p : PredefFn) db (a b : ℝ),
        p location city = some (a, b) →
        adminCreateCoords none none location city style p db =
          (some (apply_collision_avoidance_deviation db
              (apply_style_deviation a b style).1
              (apply_style_deviation a b style).2
              city location style (countSameStyle db city location style)
              none).1,
           some (apply_collision_avoidance_deviation db
              (apply_style_deviation a b style).1
              (apply_style_deviation a b style).2
              city location style (countSameStyle db city location style)
              none).2)) ∧
    (∀ location city style (p : PredefFn) db,
        p location city = none →
        adminCreateCoords none none location city style p db =
          (none, none)) := by
  refine ⟨?_, ?_, ?_, ?_⟩
  · intro la lo location city style p1 p2 db
    rw [adminCreate_explicit, adminCreate_explicit]
  · intro la lo location city style p db
    exact adminCreate_explicit la lo location city style p db
  · intro location city style p db a b hp
    simp [adminCreateCoords, hp]
  · intro location city style p db hp
    simp [adminCreateCoords, hp]

/-- Witness for C1: a one-entry predefined table supplies the base point
for ("Studio", "sofia"); an empty table leaves the workshop without
coordinates. -/
theorem admin_create_pipeline_witness :
    adminCreateCoords none none "Studio" "sofia" "salsa" predefStudio [] =
      (some (apply_collision_avoidance_deviation []
          (apply_style_deviation 1 2 "salsa").1
          (apply_style_deviation 1 2 "salsa").2
          "sofia" "Studio" "salsa" (countSameStyle [] "sofia" "Studio" "salsa")
          none).1,
       some (apply_collision_avoidance_deviation []
          (apply_style_deviation 1 2 "salsa").1
          (apply_style_deviation 1 2 "salsa").2
          "sofia" "Studio" "salsa" (countSameStyle [] "sofia" "Studio" "salsa")
          none).2) ∧
    adminCreateCoords none none "Studio Ritmo" "sofia" "salsa"
        (fun _ _ => none) [] = (none, none) :=
  ⟨admin_create_pipeline.2.2.1 "Studio" "sofia" "salsa" predefStudio [] 1 2 rfl,
   admin_create_pipeline.2.2.2 "Studio Ritmo" "sofia" "salsa"
     (fun _ _ => none) [] rfl⟩

/-- **C2 (counterexample).** The claim says a style-only update re-runs the
coordinate pipeline and recomputes the stored lat/lon.  It does not: an
update changing only the style (here "salsa" → "bachata", with a
predefined entry available for the unchanged location) writes no lat/lon
columns at all, so the displaced coordinates computed for the old style
remain stored. -/
theorem admin_update_style_only_counterexample :
    adminUpdateCoords none none (some "bachata") none none
        "sofia" "Studio X" "salsa" 7 (fun _ _ => some (1, 2)) []
      = (none, none) ∧
    "bachata" ≠ "salsa" :=
  ⟨rfl, by decide⟩

/-- **C2 (amended).** The update handler re-runs the coordinate pipeline
only when the update supplies a new (non-empty) location or explicit
coordinates: (i) a style-only update (no location, no explicit lat/lon)
writes no coordinate columns, leaving the previously stored displaced
point in place; (ii) when a new location is supplied and the predefined
table has a match for it, the stored lat/lon are recomputed by the full
pipeline from that predefined base point with the updated style, city and
location — the previously persisted displaced coordinates are not inputs
to this computation; (iii) when a new location is supplied but there is no
predefined match and no explicit coordinates, no lat/lon are written (the
old displaced point survives under the new location). -/
theorem admin_update_pipeline :
    (∀ (styU : Option String) curCity curLoc curSty wid (p : PredefFn) db,
        adminUpdateCoords none none styU none none
            curCity curLoc curSty wid p db = (none, none)) ∧
    (∀ l (cityU styU : Option String) curCity curLoc curSty wid
        (p : PredefFn) db (a b : ℝ),
        l ≠ "" →
        p l (pyOrElse cityU curCity) = some (a, b) →
        adminUpdateCoords (some l) cityU styU none none
            curCity curLoc curSty wid p db =
          (some (apply_collision_avoidance_deviation db
              (apply_style_deviation a b (pyOrElse styU curSty)).1
              (apply_style_deviation a b (pyOrElse styU curSty)).2
              (pyOrElse cityU curCity) l (pyOrElse styU curSty)
              (countSameStyleExcl db (pyOrElse cityU curCity) l
                (pyOrElse styU curSty) wid)
              (some wid)).1,
           some (apply_collision_avoidance_deviation db
              (apply_style_deviation a b (pyOrElse styU curSty)).1
              (apply_style_deviation a b (pyOrElse styU curSty)).2
              (pyOrElse cityU curCity) l (pyOrElse styU curSty)
              (countSameStyleExcl db (pyOrElse cityU curCity) l
                (pyOrElse styU curSty) wid)
              (some wid)).2)) ∧
    (∀ l (cityU styU : Option String) curCity curLoc curSty wid
        (p : PredefFn) db,
        l ≠ "" →
        p l (pyOrElse cityU curCity) = none →
        adminUpdateCoords (some l) cityU styU none none
            curCity curLoc curSty wid p db = (none, none)) := by
  refine ⟨?_, ?_, ?_⟩
  · intro styU curCity curLoc curSty wid p db
    rfl
  · intro l cityU styU curCity curLoc curSty wid p db a b hl hp
    simp [adminUpdateCoords, truthyS, hl, hp, pyOrElse_some curLoc hl]
  · intro l cityU styU curCity curLoc curSty wid p db hl hp
    simp [adminUpdateCoords, truthyS, hl, hp]

/-- Witness for C2: updating the location to "Studio Y" (predefined base
(3, 4)) together with the style recomputes the stored coordinates through
the full pipeline; the no-location branch writes nothing. -/
theorem admin_update_pipeline_witness :
    adminUpdateCoords (some "Studio Y") none (some "bachata") none none
        "sofia" "Studio X" "salsa" 7 predefStudioY [] =
      (some (apply_collision_avoidance_deviation []
          (apply_style_deviation 3 4 "bachata").1
          (apply_style_deviation 3 4 "bachata").2
          "sofia" "Studio Y" "bachata"
          (countSameStyleExcl [] "sofia" "Studio Y" "bachata" 7)
          (some 7)).1,
       some (apply_collision_avoidance_deviation []
          (apply_style_deviation 3 4 "bachata").1
          (apply_style_deviation 3 4 "bachata").2
          "sofia" "Studio Y" "bachata"
          (countSameStyleExcl [] "sofia" "Studio Y" "bachata" 7)
          (some 7)).2) :=
  admin_update_pipeline.2.1 "Studio Y" none (some "bachata")
    "sofia" "Studio X" "salsa" 7 predefStudioY [] 3 4 (by decide) rfl

end DanceGeo
